import Mathlib

/-!
Verification of the reconciliation core of the `nextcloud-operator` charm
(`src/charm.py`).  The charm's handlers are embedded as pure Lean functions:

* configuration is a finite association list of setting name to value
  (Python dict semantics: subscripting a missing key raises `KeyError`,
  modelled with `Except String`, the error carrying the missing key);
* the stored database mapping (`self.store.database`) only ever holds the
  five keys `type, host, name, user, password`, so it is embedded as a
  record of five `Option String` fields, the empty dict being all-`none`;
* each handler returns the new stored database mapping together with the
  observable effects of the call: the unit statuses it set (in order), the
  pod specs it published via `pod.set_spec` (in order), and the uncaught
  exception, if any, that escaped the handler.
-/

/-- A Python configuration value: charm config values are strings or
integers; `vnone` stands for Python `None`. -/
inductive Val where
  | vstr (s : String)
  | vint (n : Int)
  | vnone
deriving DecidableEq, Repr

/-- Python truthiness for the values above: `""`, `0` and `None` are falsy. -/
def Val.truthy : Val → Bool
  | .vstr s => s ≠ ""
  | .vint n => n ≠ 0
  | .vnone => false

/-- A charm configuration: `self.model.config` as a finite map. -/
abbrev Config := List (String × Val)

/-- Lookup in the `config.get(key)` style: first binding wins, `none` if absent. -/
def cfgGet : Config → String → Option Val
  | [], _ => Option.none
  | (k, v) :: rest, key => if k = key then some v else cfgGet rest key

/-- Subscripting `config[key]`: raises `KeyError(key)` when the key is absent. -/
def cfgItem (c : Config) (key : String) : Except String Val :=
  match cfgGet c key with
  | some v => .ok v
  | Option.none => .error key

/-- Constant `REQUIRED_SETTINGS = ["image"]` (charm.py line 24). -/
def REQUIRED_SETTINGS : List String := ["image"]

/-- Constant `REQUIRED_DATABASE_FIELDS` (charm.py lines 26-32); the Python value is a
set, listed here in the source's textual order. -/
def REQUIRED_DATABASE_FIELDS : List String :=
  ["type", "host", "name", "user", "password"]

/-- Constant `VALID_DATABASE_TYPES` of charm.py line 34, the set of the two valid engine names. -/
def VALID_DATABASE_TYPES : List String := ["mysql", "postgres"]

/-- The stored database mapping `self.store.database`.  The code only ever
inserts the five `REQUIRED_DATABASE_FIELDS` keys, so the dict is embedded
as five optional fields; a field is `none` when its key is absent. -/
structure DB where
  type : Option String
  host : Option String
  name : Option String
  user : Option String
  password : Option String
deriving DecidableEq, Repr

/-- The empty stored mapping `{}` (the `set_default` value, charm.py line 52). -/
def DB.empty : DB :=
  ⟨Option.none, Option.none, Option.none, Option.none, Option.none⟩

/-- Embeds `self.store.database.get(field)`. -/
def DB.get (db : DB) (field : String) : Option String :=
  if field = "type" then db.type
  else if field = "host" then db.host
  else if field = "name" then db.name
  else if field = "user" then db.user
  else if field = "password" then db.password
  else Option.none

/-- The per-unit relation data `event.relation.data[event.unit]`, restricted
to the five fields the handler reads via `.get`; a field absent from the
relation data is `none`. -/
structure RelationData where
  type : Option String
  host : Option String
  name : Option String
  user : Option String
  password : Option String
deriving DecidableEq, Repr

/-- Embeds `event.relation.data[event.unit].get(field)`. -/
def RelationData.get (r : RelationData) (field : String) : Option String :=
  if field = "type" then r.type
  else if field = "host" then r.host
  else if field = "name" then r.name
  else if field = "user" then r.user
  else if field = "password" then r.password
  else Option.none

/-- A unit status value (`ops.model` status classes). -/
inductive Status where
  | active
  | waiting (msg : String)
  | blocked (msg : String)
  | maintenance (msg : String)
deriving DecidableEq, Repr

/-- The readiness probe's `httpGet` descriptor. -/
structure HttpGet where
  path : String
  port : String
deriving DecidableEq, Repr

/-- The `kubernetes.readinessProbe` descriptor. -/
structure ReadinessProbe where
  httpGet : HttpGet
  initialDelaySeconds : Nat
  timeoutSeconds : Nat
deriving DecidableEq, Repr

/-- One `ports` entry of a container.  `containerPort` is the raw
configuration value `config["port"]`. -/
structure PortEntry where
  name : String
  containerPort : Val
  protocol : String
deriving DecidableEq, Repr

/-- One `containers` entry of the pod spec.  `imagePath` is the raw
configuration value `config["image"]`; `envConfig` maps environment
variable names to values taken from the store with `.get` (hence
optional); `volumeConfig` is a list with no inhabitable entries since the
charm never builds one. -/
structure Container where
  name : String
  imagePath : Val
  ports : List PortEntry
  volumeConfig : List Empty
  envConfig : List (String × Option String)
  readinessProbe : ReadinessProbe
deriving DecidableEq, Repr

/-- The pod spec dictionary built by `_build_pod_spec`. -/
structure PodSpec where
  version : Nat
  containers : List Container
deriving DecidableEq, Repr

/-- The observable effects of one handler invocation: unit statuses set (in
order), specs published through `pod.set_spec` (in order), and the key of
an uncaught `KeyError`, when one escaped the handler. -/
structure Effects where
  statuses : List Status
  published : List PodSpec
  err : Option String
deriving DecidableEq, Repr

/-- No observable effect. -/
def Effects.none : Effects := ⟨[], [], Option.none⟩

/-- Python truthiness of a `dict.get` result on string-valued dicts:
`None` and `""` are falsy. -/
def optStrTruthy (o : Option String) : Bool :=
  match o with
  | some s => s ≠ ""
  | Option.none => false

/-- Insert a string into a ≤-sorted list, keeping it sorted. -/
def insertSorted (s : String) : List String → List String
  | [] => [s]
  | t :: rest => if s ≤ t then s :: t :: rest else t :: insertSorted s rest

/-- Python `sorted(...)` on a list of strings (insertion sort). -/
def sortStrings : List String → List String
  | [] => []
  | s :: rest => insertSorted s (sortStrings rest)

/-- Embeds `_missing_charm_settings` (charm.py lines 54-59): the required settings
whose configured value is falsy, sorted; subscripting `config[setting]`
raises `KeyError` when a required key is absent from the configuration. -/
def missingCharmSettings (config : Config) : Except String (List String) :=
  Except.map sortStrings (go config REQUIRED_SETTINGS)
where
  /-- The list comprehension `[s for s in settings if not config[s]]`,
  evaluated left to right. -/
  go (config : Config) : List String → Except String (List String)
    | [] => .ok []
    | s :: rest =>
      match cfgGet config s with
      | Option.none => .error s
      | some v =>
        match go config rest with
        | .error k => .error k
        | .ok ms => .ok (if v.truthy then ms else s :: ms)

/-- Embeds `_check_for_config_problems` (charm.py lines 61-69). -/
def checkForConfigProblems (config : Config) : Except String String :=
  match missingCharmSettings config with
  | .error k => .error k
  | .ok missing =>
    .ok (if missing ≠ [] then
          "required setting(s) empty: " ++ String.intercalate ", " missing
        else "")

/-- Embeds `_update_pod_env_config` (charm.py lines 117-138): compute the env
mapping from the stored database type and patch it into the first
container of the spec (the Python code mutates `pod_spec['containers'][0]`
in place; a spec with no container would raise, a case no caller
produces). -/
def updatePodEnvConfig (db : DB) (spec : PodSpec) : PodSpec :=
  let dbType := (Option.getD (db.get "type") "").toLower
  let env0 : List (String × Option String) := []
  let env1 := if dbType = "mysql" then
      [("MYSQL_DATABASE", db.get "name"), ("MYSQL_USER", db.get "user"),
       ("MYSQL_PASSWORD", db.get "password"), ("MYSQL_HOST", db.get "host")]
    else env0
  let env2 := if dbType = "postgresql" ∨ dbType = "postgres" then
      [("POSTGRES_DB", db.get "name"), ("POSTGRES_USER", db.get "user"),
       ("POSTGRES_PASSWORD", db.get "password"), ("POSTGRES_HOST", db.get "host")]
    else env1
  match spec.containers with
  | [] => spec
  | c :: rest => { spec with containers := { c with envConfig := env2 } :: rest }

/-- Embeds `_build_pod_spec` (charm.py lines 140-173).  `appName` is
`self.app.name`.  `config["image"]` is subscripted before
`config["port"]`, so a missing `image` key raises first. -/
def buildPodSpec (appName : String) (config : Config) : Except String PodSpec :=
  match cfgItem config "image" with
  | .error k => .error k
  | .ok image =>
    match cfgItem config "port" with
    | .error k => .error k
    | .ok port =>
      .ok { version := 3,
            containers := [
              { name := appName,
                imagePath := image,
                ports := [{ name := "http", containerPort := port, protocol := "TCP" }],
                volumeConfig := [],
                envConfig := [],
                readinessProbe :=
                  { httpGet := { path := "/status.php", port := "http" },
                    initialDelaySeconds := 10,
                    timeoutSeconds := 30 } }] }

/-- Embeds `configure_pod` (charm.py lines 175-200).  The store is not mutated;
the return value records the statuses set, the specs published, and any
uncaught `KeyError`. -/
def configurePod (isLeader : Bool) (appName : String) (config : Config)
    (db : DB) : Effects :=
  if ¬ optStrTruthy (db.get "host") then
    { statuses := [.waiting "Waiting for database relation"], published := [],
      err := Option.none }
  else
    match checkForConfigProblems config with
    | .error k => { statuses := [], published := [], err := some k }
    | .ok problems =>
      if problems ≠ "" then
        { statuses := [.blocked problems], published := [], err := Option.none }
      else if ¬ isLeader then
        { statuses := [.active], published := [], err := Option.none }
      else
        match buildPodSpec appName config with
        | .error k =>
          { statuses := [.maintenance "Building pod spec."], published := [],
            err := some k }
        | .ok spec =>
          { statuses := [.maintenance "Building pod spec.", .active],
            published := [updatePodEnvConfig db spec],
            err := Option.none }

/-- The dict comprehension plus `self.store.database.update(...)` of
`on_database_changed` (charm.py lines 101-105): every field with a
non-`None` extracted value overwrites the stored one; fields extracted as
`None` leave the stored value untouched. -/
def DB.updateFrom (db : DB) (r : RelationData) : DB :=
  { type := if r.type.isSome then r.type else db.type,
    host := if r.host.isSome then r.host else db.host,
    name := if r.name.isSome then r.name else db.name,
    user := if r.user.isSome then r.user else db.user,
    password := if r.password.isSome then r.password else db.password }

/-- The `missing_fields` list of `on_database_changed` (charm.py
lines 87-89). -/
def missingDbFields (r : RelationData) : List String :=
  REQUIRED_DATABASE_FIELDS.filter (fun f => (r.get f).isNone)

/-- Embeds `database_fields['type'] not in VALID_DATABASE_TYPES` (charm.py
line 96), as a validity test on the extracted optional value (a `None`
type is never in the valid set, though the preceding missing-fields guard
already rules it out). -/
def typeIsValid (t : Option String) : Bool :=
  match t with
  | some s => s ∈ VALID_DATABASE_TYPES
  | Option.none => false

/-- Embeds `on_database_changed` (charm.py lines 71-107).  `hasEventUnit` is
`event.unit is not None`; `rel` is the per-unit relation data.  Returns
the new stored database mapping and the effects (the final
`self.configure_pod(event)` call contributes its effects on the success
path). -/
def onDatabaseChanged (isLeader hasEventUnit : Bool) (rel : RelationData)
    (appName : String) (config : Config) (db : DB) : DB × Effects :=
  if ¬ isLeader then (db, Effects.none)
  else if ¬ hasEventUnit then (db, Effects.none)
  else if missingDbFields rel ≠ [] then (db, Effects.none)
  else if ¬ typeIsValid (rel.get "type") then (db, Effects.none)
  else
    let db' := db.updateFrom rel
    (db', configurePod isLeader appName config db')

/-- Embeds `on_database_broken` (charm.py lines 109-115). -/
def onDatabaseBroken (isLeader : Bool) (db : DB) : DB × Effects :=
  if ¬ isLeader then (db, Effects.none)
  else (DB.empty, Effects.none)

/-- A triggering event delivered to the charm: `start`, `config_changed`
and `upgrade_charm` all route straight to `configure_pod`; the two
`database` relation events route to their handlers.  Each event carries
the configuration in force when it is handled. -/
inductive Event where
  | trigger (config : Config)
  | dbChanged (hasEventUnit : Bool) (rel : RelationData) (config : Config)
  | dbBroken
deriving Repr

/-- Deliver one event to the charm: new stored mapping plus effects. -/
def step (isLeader : Bool) (appName : String) (db : DB) : Event → DB × Effects
  | .trigger config => (db, configurePod isLeader appName config db)
  | .dbChanged hasEventUnit rel config =>
      onDatabaseChanged isLeader hasEventUnit rel appName config db
  | .dbBroken => onDatabaseBroken isLeader db

/-- Deliver a sequence of events, collecting each event's effects. -/
def run (isLeader : Bool) (appName : String) : DB → List Event → DB × List Effects
  | db, [] => (db, [])
  | db, e :: es =>
    let r := step isLeader appName db e
    let rest := run isLeader appName r.1 es
    (rest.1, r.2 :: rest.2)

/-- The environment mapping as the spec describes it (section 4.3): a
single decision on the lower-cased stored type, `MYSQL_*` for `mysql`,
`POSTGRES_*` for the postgres variants, empty otherwise.  Stated
independently of `updatePodEnvConfig` so that the two can be compared. -/
def envMappingSpec (db : DB) : List (String × Option String) :=
  let t := (Option.getD db.type "").toLower
  if t = "mysql" then
    [("MYSQL_DATABASE", db.name), ("MYSQL_USER", db.user),
     ("MYSQL_PASSWORD", db.password), ("MYSQL_HOST", db.host)]
  else if t = "postgres" ∨ t = "postgresql" then
    [("POSTGRES_DB", db.name), ("POSTGRES_USER", db.user),
     ("POSTGRES_PASSWORD", db.password), ("POSTGRES_HOST", db.host)]
  else []

/-- The stored-mapping invariant of the spec (section 3): the store is
either empty or holds all five fields with non-null values and a valid
engine type. -/
def dbInvariant (db : DB) : Bool :=
  db = DB.empty ||
    (db.type.isSome && db.host.isSome && db.name.isSome &&
     db.user.isSome && db.password.isSome && typeIsValid db.type)

/-- An effects record that publishes nothing, raises nothing, and sets at
most the waiting-for-database status. -/
def effectsQuiet (eff : Effects) : Bool :=
  eff.published = ([] : List PodSpec) && eff.err = (Option.none : Option String) &&
    (eff.statuses = ([] : List Status) ||
     eff.statuses = [Status.waiting "Waiting for database relation"])

/-- The test suite's `BASE_CONFIG`. -/
def baseConfig : Config :=
  [("port", Val.vint 3000), ("image", Val.vstr "nextcloud:testing")]

/-- A configuration with a truthy `image` but no `port` key at all. -/
def configNoPort : Config := [("image", Val.vstr "nextcloud:testing")]

/-- The test suite's mysql relation data. -/
def sampleRel : RelationData :=
  ⟨some "mysql", some "0.1.2.3:3306", some "my-test-db", some "test-user",
   some "super!secret!password"⟩

/-- The stored mapping after a successful mysql relation-changed event. -/
def sampleDB : DB :=
  ⟨some "mysql", some "0.1.2.3:3306", some "my-test-db", some "test-user",
   some "super!secret!password"⟩

/-- The pod spec `_build_pod_spec` produces for app `nextcloud` under
`baseConfig`. -/
def samplePodSpec : PodSpec :=
  { version := 3,
    containers := [
      { name := "nextcloud",
        imagePath := Val.vstr "nextcloud:testing",
        ports := [{ name := "http", containerPort := Val.vint 3000,
                    protocol := "TCP" }],
        volumeConfig := [],
        envConfig := [],
        readinessProbe :=
          { httpGet := { path := "/status.php", port := "http" },
            initialDelaySeconds := 10,
            timeoutSeconds := 30 } }] }

/-- Value of `_check_for_config_problems` when the `image` key is present:
the only required setting is `image`, so the result names `image` exactly
when its value is falsy. -/
theorem checkForConfigProblems_eq (config : Config) (v : Val)
    (hv : cfgGet config "image" = some v) :
    checkForConfigProblems config =
      .ok (if v.truthy then "" else "required setting(s) empty: image") := by
  cases ht : v.truthy
  · simp [checkForConfigProblems, missingCharmSettings, missingCharmSettings.go,
      REQUIRED_SETTINGS, hv, ht, Except.map, sortStrings, insertSorted,
      String.intercalate]
    rfl
  · simp [checkForConfigProblems, missingCharmSettings, missingCharmSettings.go,
      REQUIRED_SETTINGS, hv, ht, Except.map, sortStrings, insertSorted,
      String.intercalate]

/-- Value of `_build_pod_spec` when both subscripted keys are present. -/
theorem buildPodSpec_eq (appName : String) (config : Config) (image port : Val)
    (himg : cfgGet config "image" = some image)
    (hport : cfgGet config "port" = some port) :
    buildPodSpec appName config = .ok
      { version := 3,
        containers := [
          { name := appName,
            imagePath := image,
            ports := [{ name := "http", containerPort := port, protocol := "TCP" }],
            volumeConfig := [],
            envConfig := [],
            readinessProbe :=
              { httpGet := { path := "/status.php", port := "http" },
                initialDelaySeconds := 10,
                timeoutSeconds := 30 } }] } := by
  simp [buildPodSpec, cfgItem, himg, hport]

/-- C1 — counterexample: on the configuration with a truthy `image` and
`port = 0` (a falsy value for the claimed required key `port`),
`_check_for_config_problems` returns the empty string, while the claim
requires a non-empty message containing `port`.  The code's
`REQUIRED_SETTINGS` list holds only `image`. -/
theorem C1_cex_port_not_checked :
    Val.truthy (Val.vint 0) = false ∧
    checkForConfigProblems [("image", Val.vstr "nextcloud:testing"), ("port", Val.vint 0)] =
      .ok "" := by
  exact ⟨rfl, rfl⟩

/-- C1 (amended): for every configuration whose mapping contains the
`image` key, `_check_for_config_problems` returns the empty string exactly
when `image` holds a truthy value; otherwise it returns the non-empty
message `required setting(s) empty: image`.  The key `port` is not among
the required settings and is never checked. -/
theorem C1_check_problems (config : Config) (v : Val)
    (hv : cfgGet config "image" = some v) :
    (checkForConfigProblems config = .ok "" ↔ v.truthy = true)
    ∧ (v.truthy = false →
        checkForConfigProblems config = .ok "required setting(s) empty: image") := by
  have h := checkForConfigProblems_eq config v hv
  cases ht : v.truthy
  · have h' : checkForConfigProblems config =
        .ok "required setting(s) empty: image" := by rw [h, ht]; simp
    refine ⟨?_, fun _ => h'⟩
    rw [h']
    simp
  · have h' : checkForConfigProblems config = .ok "" := by rw [h, ht]; simp
    simp [h', ht]

/-- C1 — witness: the empty-string `image` value yields the message. -/
theorem C1_check_problems_witness :
    cfgGet [("image", Val.vstr "")] "image" = some (Val.vstr "") ∧
    (Val.vstr "").truthy = false ∧
    checkForConfigProblems [("image", Val.vstr "")] =
      .ok "required setting(s) empty: image" := by
  refine ⟨rfl, rfl, ?_⟩
  exact (C1_check_problems [("image", Val.vstr "")] (Val.vstr "") rfl).2 rfl

/-- C7: `on_database_broken` is a no-op on a non-leader unit; on the
leader it resets the stored mapping to empty.  In both cases it sets no
status, publishes nothing and raises nothing (`Effects.none`), so it never
triggers a reconciliation pass by itself. -/
theorem C7_broken_frame (db : DB) :
    onDatabaseBroken false db = (db, Effects.none)
    ∧ onDatabaseBroken true db = (DB.empty, Effects.none) := by
  constructor <;> rfl

/-- C9: `_build_pod_spec` is a deterministic function of the two
configuration values `image` and `port` alone (the store is not an
argument): a version-3 spec with one container, whose `imageDetails`
holds `config["image"]`, one `http`/TCP port entry carrying
`config["port"]`, empty `volumeConfig`, empty `envConfig`, and the fixed
`/status.php` readiness probe with 10s initial delay and 30s timeout. -/
theorem C9_build_pod_spec (appName : String) (config : Config) (image port : Val)
    (himg : cfgGet config "image" = some image)
    (hport : cfgGet config "port" = some port) :
    buildPodSpec appName config = .ok
      { version := 3,
        containers := [
          { name := appName,
            imagePath := image,
            ports := [{ name := "http", containerPort := port, protocol := "TCP" }],
            volumeConfig := [],
            envConfig := [],
            readinessProbe :=
              { httpGet := { path := "/status.php", port := "http" },
                initialDelaySeconds := 10,
                timeoutSeconds := 30 } }] } :=
  buildPodSpec_eq appName config image port himg hport

/-- C9 — witness: under the test suite's configuration
(`port = 3000`, `image = nextcloud:testing`) the built spec has
`containerPort = 3000` and `imagePath = nextcloud:testing`. -/
theorem C9_build_pod_spec_witness :
    cfgGet baseConfig "image" = some (Val.vstr "nextcloud:testing")
    ∧ cfgGet baseConfig "port" = some (Val.vint 3000)
    ∧ buildPodSpec "nextcloud" baseConfig = .ok samplePodSpec := by
  refine ⟨rfl, rfl, ?_⟩
  exact C9_build_pod_spec "nextcloud" baseConfig (Val.vstr "nextcloud:testing")
    (Val.vint 3000) rfl rfl

/-- A configuration whose `image` value is empty (and `port` set), driving
`configure_pod` into the blocked branch. -/
def emptyImageConfig : Config := [("port", Val.vint 3000), ("image", Val.vstr "")]

/-- C2: `configure_pod` evaluates its chain in order and stops at the
first match: (1) no truthy stored `host` sets only
`Waiting(Waiting for database relation)`; (2) otherwise a non-empty
`_check_for_config_problems` result sets only `Blocked` with that message;
(3) otherwise a non-leader sets only `Active`, building and publishing
nothing; (4) otherwise the leader sets `Maintenance(Building pod spec.)`,
builds the spec, patches its env from the store, publishes exactly that
spec, and sets `Active`. -/
theorem C2_configure_pod_chain (isLeader : Bool) (appName : String)
    (config : Config) (db : DB) :
    (optStrTruthy (db.get "host") = false →
      configurePod isLeader appName config db =
        ⟨[.waiting "Waiting for database relation"], [], Option.none⟩)
    ∧ (∀ problems : String, optStrTruthy (db.get "host") = true →
        checkForConfigProblems config = .ok problems → problems ≠ "" →
        configurePod isLeader appName config db =
          ⟨[.blocked problems], [], Option.none⟩)
    ∧ (optStrTruthy (db.get "host") = true →
        checkForConfigProblems config = .ok "" → isLeader = false →
        configurePod isLeader appName config db = ⟨[.active], [], Option.none⟩)
    ∧ (∀ spec : PodSpec, optStrTruthy (db.get "host") = true →
        checkForConfigProblems config = .ok "" → isLeader = true →
        buildPodSpec appName config = .ok spec →
        configurePod isLeader appName config db =
          ⟨[.maintenance "Building pod spec.", .active],
           [updatePodEnvConfig db spec], Option.none⟩) := by
  refine ⟨?_, ?_, ?_, ?_⟩
  · intro hhost
    simp [configurePod, hhost]
  · intro problems hhost hchk hne
    simp [configurePod, hhost, hchk, hne]
  · intro hhost hchk hlead
    simp [configurePod, hhost, hchk, hlead]
  · intro spec hhost hchk hlead hbuild
    simp [configurePod, hhost, hchk, hlead, hbuild]

/-- C2 — witness: one concrete run per branch of the chain. -/
theorem C2_configure_pod_chain_witness :
    (optStrTruthy (DB.empty.get "host") = false ∧
      configurePod true "nextcloud" baseConfig DB.empty =
        ⟨[.waiting "Waiting for database relation"], [], Option.none⟩)
    ∧ (optStrTruthy (sampleDB.get "host") = true ∧
        checkForConfigProblems emptyImageConfig =
          .ok "required setting(s) empty: image" ∧
        configurePod true "nextcloud" emptyImageConfig sampleDB =
          ⟨[.blocked "required setting(s) empty: image"], [], Option.none⟩)
    ∧ (checkForConfigProblems baseConfig = .ok "" ∧
        configurePod false "nextcloud" baseConfig sampleDB =
          ⟨[.active], [], Option.none⟩)
    ∧ (buildPodSpec "nextcloud" baseConfig = .ok samplePodSpec ∧
        configurePod true "nextcloud" baseConfig sampleDB =
          ⟨[.maintenance "Building pod spec.", .active],
           [updatePodEnvConfig sampleDB samplePodSpec], Option.none⟩) := by
  refine ⟨⟨rfl, ?_⟩, ⟨rfl, rfl, ?_⟩, ⟨rfl, ?_⟩, ⟨rfl, ?_⟩⟩
  · exact (C2_configure_pod_chain true "nextcloud" baseConfig DB.empty).1 rfl
  · exact (C2_configure_pod_chain true "nextcloud" emptyImageConfig sampleDB).2.1
      "required setting(s) empty: image" rfl rfl (by simp)
  · exact (C2_configure_pod_chain false "nextcloud" baseConfig sampleDB).2.2.1
      rfl rfl rfl
  · exact (C2_configure_pod_chain true "nextcloud" baseConfig sampleDB).2.2.2
      samplePodSpec rfl rfl rfl rfl

/-- Existence form of `buildPodSpec_eq`: both keys present means the
builder returns a spec rather than raising. -/
theorem buildPodSpec_isOk (appName : String) (config : Config)
    (himg : (cfgGet config "image").isSome = true)
    (hport : (cfgGet config "port").isSome = true) :
    ∃ spec, buildPodSpec appName config = .ok spec := by
  obtain ⟨image, hi⟩ := Option.isSome_iff_exists.mp himg
  obtain ⟨port, hp⟩ := Option.isSome_iff_exists.mp hport
  exact ⟨_, buildPodSpec_eq appName config image port hi hp⟩

/-- Error-freedom of `configure_pod` when both subscripted keys exist. -/
theorem configurePod_err_none (isLeader : Bool) (appName : String)
    (config : Config) (db : DB)
    (himg : (cfgGet config "image").isSome = true)
    (hport : (cfgGet config "port").isSome = true) :
    (configurePod isLeader appName config db).err = Option.none := by
  obtain ⟨v, hv⟩ := Option.isSome_iff_exists.mp himg
  have hchk := checkForConfigProblems_eq config v hv
  obtain ⟨spec, hbuild⟩ := buildPodSpec_isOk appName config himg hport
  by_cases hh : optStrTruthy (db.get "host") = true
  · cases ht : v.truthy
    · have h' : checkForConfigProblems config =
          .ok "required setting(s) empty: image" := by rw [hchk, ht]; simp
      simp [configurePod, hh, h']
    · have h' : checkForConfigProblems config = .ok "" := by rw [hchk, ht]; simp
      cases isLeader
      · simp [configurePod, hh, h']
      · simp [configurePod, hh, h', hbuild]
  · have hh' : optStrTruthy (db.get "host") = false := by
      cases hx : optStrTruthy (db.get "host")
      · rfl
      · exact absurd hx hh
    simp [configurePod, hh']

/-- C3 — counterexample: on the leader, with a stored database host and a
configuration holding a truthy `image` but no `port` key, `configure_pod`
raises an uncaught `KeyError('port')` from `_build_pod_spec`, and
`on_database_changed` propagates the same exception through its final
reconciliation call; the claim says no handler ever raises. -/
theorem C3_cex_port_keyerror :
    optStrTruthy (sampleDB.get "host") = true ∧
    (configurePod true "nextcloud" configNoPort sampleDB).err = some "port" ∧
    (onDatabaseChanged true true sampleRel "nextcloud" configNoPort DB.empty).2.err =
      some "port" := by
  exact ⟨rfl, rfl, rfl⟩

/-- C3 (amended): for every configuration whose mapping contains both the
`image` and `port` keys — whatever their values, in particular a falsy
`port` — and every store state, leadership, event unit and relation data,
the three handlers return normally: no `KeyError` (`err = none`).  When
either key is absent from the mapping, `config[...]` subscripting can
raise, as the counterexample shows. -/
theorem C3_no_uncaught_exceptions (isLeader hasEventUnit : Bool)
    (rel : RelationData) (appName : String) (config : Config) (db : DB)
    (himg : (cfgGet config "image").isSome = true)
    (hport : (cfgGet config "port").isSome = true) :
    (configurePod isLeader appName config db).err = Option.none
    ∧ (onDatabaseChanged isLeader hasEventUnit rel appName config db).2.err =
        Option.none
    ∧ (onDatabaseBroken isLeader db).2.err = Option.none := by
  refine ⟨configurePod_err_none isLeader appName config db himg hport, ?_, ?_⟩
  · unfold onDatabaseChanged
    split_ifs <;>
      first
      | rfl
      | exact configurePod_err_none isLeader appName config _ himg hport
  · unfold onDatabaseBroken
    split_ifs <;> rfl

/-- C3 — witness: with `port = 0` (present but falsy) and the unit being
the leader with a stored host, no handler raises. -/
theorem C3_no_uncaught_exceptions_witness :
    (cfgGet emptyImageConfig "image").isSome = true
    ∧ (cfgGet emptyImageConfig "port").isSome = true
    ∧ (configurePod true "nextcloud" [("port", Val.vint 0),
        ("image", Val.vstr "nextcloud:testing")] sampleDB).err = Option.none
    ∧ (onDatabaseChanged true true sampleRel "nextcloud" [("port", Val.vint 0),
        ("image", Val.vstr "nextcloud:testing")] sampleDB).2.err = Option.none
    ∧ (onDatabaseBroken true sampleDB).2.err = Option.none := by
  have h := C3_no_uncaught_exceptions true true sampleRel "nextcloud"
    [("port", Val.vint 0), ("image", Val.vstr "nextcloud:testing")] sampleDB rfl rfl
  exact ⟨rfl, rfl, h.1, h.2.1, h.2.2⟩

/-- C4: every failure case of `on_database_changed` — non-leader, missing
event unit, a missing required relation field, or an invalid database
type — leaves the stored mapping unchanged and produces no effect at all:
no status, no published spec, no reconciliation, no exception. -/
theorem C4_changed_failure_frame (isLeader hasEventUnit : Bool)
    (rel : RelationData) (appName : String) (config : Config) (db : DB)
    (h : isLeader = false ∨ hasEventUnit = false ∨ missingDbFields rel ≠ [] ∨
         typeIsValid (rel.get "type") = false) :
    onDatabaseChanged isLeader hasEventUnit rel appName config db =
      (db, Effects.none) := by
  rcases h with h | h | h | h
  · subst h
    simp [onDatabaseChanged]
  · subst h
    cases isLeader <;> simp [onDatabaseChanged]
  · cases isLeader <;> cases hasEventUnit <;> simp [onDatabaseChanged, h]
  · cases isLeader <;> cases hasEventUnit <;> simp [onDatabaseChanged, h]

/-- C4 — witness: a non-leader unit receiving complete valid relation data
changes nothing and does nothing. -/
theorem C4_changed_failure_frame_witness :
    onDatabaseChanged false true sampleRel "nextcloud" baseConfig sampleDB =
      (sampleDB, Effects.none) :=
  C4_changed_failure_frame false true sampleRel "nextcloud" baseConfig sampleDB
    (Or.inl rfl)

/-- The `missing_fields` list is empty exactly when all five required
relation fields were extracted as non-null. -/
theorem missingDbFields_eq_nil (r : RelationData) :
    missingDbFields r = [] ↔
      (r.type.isSome = true ∧ r.host.isSome = true ∧ r.name.isSome = true ∧
       r.user.isSome = true ∧ r.password.isSome = true) := by
  rcases r with ⟨t, ho, na, us, pw⟩
  cases t <;> cases ho <;> cases na <;> cases us <;> cases pw <;>
    simp [missingDbFields, REQUIRED_DATABASE_FIELDS, RelationData.get,
      List.filter]

/-- One event preserves the stored-mapping invariant. -/
theorem dbInvariant_step (isLeader : Bool) (appName : String) (db : DB)
    (e : Event) (h : dbInvariant db = true) :
    dbInvariant (step isLeader appName db e).1 = true := by
  cases e with
  | trigger config => simpa [step] using h
  | dbBroken =>
    cases isLeader
    · simpa [step, onDatabaseBroken] using h
    · simp [step, onDatabaseBroken, dbInvariant, DB.empty]
  | dbChanged hasEventUnit rel config =>
    cases isLeader
    · simpa [step, onDatabaseChanged] using h
    · cases hasEventUnit
      · simpa [step, onDatabaseChanged] using h
      · by_cases hm : missingDbFields rel = []
        · by_cases hv : typeIsValid (rel.get "type") = true
          · have hred :
                (step true appName db (Event.dbChanged true rel config)).1 =
                  db.updateFrom rel := by
              simp [step, onDatabaseChanged, hm, hv]
            rw [hred]
            obtain ⟨ht, hh, hn, hu, hp⟩ := (missingDbFields_eq_nil rel).mp hm
            have hty : rel.get "type" = rel.type := by simp [RelationData.get]
            rw [hty] at hv
            simp [dbInvariant, DB.updateFrom, ht, hh, hn, hu, hp, hv]
          · simpa [step, onDatabaseChanged, hm, hv] using h
        · simpa [step, onDatabaseChanged, hm] using h

/-- C5: starting from the initial empty store, after any sequence of
events — any leadership, any relation data, any configuration — the
stored database mapping is either empty or holds all five fields with
non-null values and a `type` in the valid set. -/
theorem C5_store_invariant (isLeader : Bool) (appName : String)
    (events : List Event) :
    dbInvariant (run isLeader appName DB.empty events).1 = true := by
  suffices hgen : ∀ (es : List Event) (db : DB), dbInvariant db = true →
      dbInvariant (run isLeader appName db es).1 = true by
    exact hgen events DB.empty (by simp [dbInvariant])
  intro es
  induction es with
  | nil => intro db hdb; simpa [run] using hdb
  | cons e es ih =>
    intro db hdb
    simp only [run]
    exact ih _ (dbInvariant_step isLeader appName db e hdb)

/-- C6: on the leader, with an event unit and relation data carrying all
five fields with a valid type, `on_database_changed` overwrites all five
stored fields with the new values — the result does not depend on the
previous store — and immediately runs a reconciliation pass
(`configure_pod`) on the updated store.  The merge itself
(`DB.updateFrom`, the embedded dict comprehension plus `dict.update`) only
overwrites with non-null values and deletes nothing; on this path every
extracted value is non-null, so all five fields are replaced. -/
theorem C6_changed_success (appName : String) (config : Config) (db : DB)
    (ty ho na us pw : String) (hvalid : ty ∈ VALID_DATABASE_TYPES) :
    onDatabaseChanged true true ⟨some ty, some ho, some na, some us, some pw⟩
        appName config db =
      ((⟨some ty, some ho, some na, some us, some pw⟩ : DB),
       configurePod true appName config
         ⟨some ty, some ho, some na, some us, some pw⟩) := by
  have hm : missingDbFields ⟨some ty, some ho, some na, some us, some pw⟩ = [] := by
    simp [missingDbFields, REQUIRED_DATABASE_FIELDS, RelationData.get, List.filter]
  have hv : typeIsValid
      (RelationData.get ⟨some ty, some ho, some na, some us, some pw⟩ "type") = true := by
    simp [RelationData.get, typeIsValid, hvalid]
  simp [onDatabaseChanged, hm, hv, DB.updateFrom]

/-- C6 — witness: the test suite's mysql relation data, applied to the
initially empty store, yields exactly that five-field mapping and a
reconciliation on it. -/
theorem C6_changed_success_witness :
    "mysql" ∈ VALID_DATABASE_TYPES ∧
    onDatabaseChanged true true sampleRel "nextcloud" baseConfig DB.empty =
      (sampleDB, configurePod true "nextcloud" baseConfig sampleDB) := by
  refine ⟨by simp [VALID_DATABASE_TYPES], ?_⟩
  exact C6_changed_success "nextcloud" baseConfig DB.empty "mysql" "0.1.2.3:3306"
    "my-test-db" "test-user" "super!secret!password" (by simp [VALID_DATABASE_TYPES])

/-- C8: `_update_pod_env_config` replaces the first container's
`envConfig` with the mapping the spec describes — `MYSQL_*` of the stored
name/user/password/host when the lower-cased stored type is `mysql`, the
analogous `POSTGRES_*` mapping for `postgres`/`postgresql`, and the empty
mapping for any other type, the empty store included — and changes nothing
else; it is total, so no error is raised. -/
theorem C8_env_mapping (db : DB) (v : Nat) (c : Container)
    (rest : List Container) :
    updatePodEnvConfig db ⟨v, c :: rest⟩ =
      ⟨v, { c with envConfig := envMappingSpec db } :: rest⟩ := by
  have hty : DB.get db "type" = db.type := by simp [DB.get]
  have hna : DB.get db "name" = db.name := by simp [DB.get]
  have hus : DB.get db "user" = db.user := by simp [DB.get]
  have hpw : DB.get db "password" = db.password := by simp [DB.get]
  have hho : DB.get db "host" = db.host := by simp [DB.get]
  simp only [updatePodEnvConfig, envMappingSpec, hty, hna, hus, hpw, hho]
  by_cases h1 : (Option.getD db.type "").toLower = "mysql"
  · have h2 : ¬ ((Option.getD db.type "").toLower = "postgresql" ∨
        (Option.getD db.type "").toLower = "postgres") := by
      rw [h1]; simp
    simp [h1, h2]
  · by_cases h2 : (Option.getD db.type "").toLower = "postgresql"
    · simp [h1, h2]
    · by_cases h3 : (Option.getD db.type "").toLower = "postgres"
      · simp [h1, h2, h3]
      · simp [h1, h2, h3]

/-- One event on a never-leader unit with the empty store: the store stays
empty and the effects publish nothing, raise nothing and set at most the
waiting status. -/
theorem step_nonleader_quiet (appName : String) (e : Event) :
    (step false appName DB.empty e).1 = DB.empty
    ∧ effectsQuiet (step false appName DB.empty e).2 = true := by
  cases e with
  | trigger config =>
    have hpod : configurePod false appName config DB.empty =
        ⟨[.waiting "Waiting for database relation"], [], Option.none⟩ := by
      simp [configurePod, DB.get, DB.empty, optStrTruthy]
    exact ⟨rfl, by simp [step, hpod, effectsQuiet]⟩
  | dbChanged hasEventUnit rel config =>
    exact ⟨by simp [step, onDatabaseChanged],
           by simp [step, onDatabaseChanged, effectsQuiet, Effects.none]⟩
  | dbBroken =>
    exact ⟨by simp [step, onDatabaseBroken],
           by simp [step, onDatabaseBroken, effectsQuiet, Effects.none]⟩

/-- C10: on a unit that is never the leader, any event sequence from the
initial empty store leaves the store empty and every event's effects are
quiet: no spec is ever published, no exception is raised, and the only
status ever set is `Waiting(Waiting for database relation)`; in
particular every `configure_pod` invocation (a `trigger` event) sets
exactly that waiting status, so the non-leader `Active` branch is never
reached from the initial state. -/
theorem C10_nonleader_inert (appName : String) (events : List Event) :
    (run false appName DB.empty events).1 = DB.empty
    ∧ (run false appName DB.empty events).2.all effectsQuiet = true
    ∧ ∀ config : Config,
        step false appName DB.empty (.trigger config) =
          (DB.empty,
           ⟨[.waiting "Waiting for database relation"], [], Option.none⟩) := by
  have main : ∀ es : List Event,
      (run false appName DB.empty es).1 = DB.empty
      ∧ (run false appName DB.empty es).2.all effectsQuiet = true := by
    intro es
    induction es with
    | nil => exact ⟨rfl, rfl⟩
    | cons e es ih =>
      obtain ⟨hq1, hq2⟩ := step_nonleader_quiet appName e
      simp only [run, List.all_cons]
      rw [hq1]
      exact ⟨ih.1, by simp [hq2, ih.2]⟩
  refine ⟨(main events).1, (main events).2, ?_⟩
  intro config
  have hpod : configurePod false appName config DB.empty =
      ⟨[.waiting "Waiting for database relation"], [], Option.none⟩ := by
    simp [configurePod, DB.get, DB.empty, optStrTruthy]
  simp [step, hpod]
